import Mathlib

/-!
Verification development for the image-chat single-page client
(`src/components/ChatInterface.tsx`).

The component state (React `useState` hooks plus the `eventSourceRef`) is
embedded as an explicit `State` structure.  Handlers become pure state
transformers; the remote HTTP calls are modelled by passing their outcome
(`Except`/structured response) as an argument; the EventSource push channel
is modelled by the pair `oldChannels`/`eventSource` recording every channel
the component ever created (the ref only ever points at the most recently
created one, and `close()` on a handle flips its open flag one way).
JavaScript `Date.now()` is threaded through as an explicit `now : Nat`.
-/

namespace ImageChat

/-- Message role: the TS union `"ai" | "human"`. -/
inductive Role where
  | ai
  | human
  deriving DecidableEq

/-- The TS `SearchResult` interface.  The relevance score is a JS number
carried around but never computed with in the component; it is embedded
as a rational. -/
structure SearchResult where
  url : String
  format : String
  alt_text : String
  source_url : String
  score : Rat
  deriving DecidableEq

/-- The TS `Message` interface.  `id` is produced from `Date.now()`;
`timestamp` (a JS `Date`) is embedded as the `now` tick at creation. -/
structure Message where
  id : String
  role : Role
  content : String
  timestamp : Nat
  search_results : Option (List SearchResult)
  deriving DecidableEq

/-- The per-format / per-page histograms of the `stats` payload field. -/
structure CrawlStats where
  formats : List (String × Nat)
  pages : List (String × Nat)
  deriving DecidableEq

/-- The optional `data` payload of a `CrawlStatus` event. -/
structure StatusData where
  status : Option String
  message : Option String
  summary : Option String
  total_images : Option Int
  total_pages : Option Int
  stats : Option CrawlStats
  deriving DecidableEq

/-- The tag union of the TS `CrawlStatus.type` field. -/
inductive EventTag where
  | connected
  | status
  | progress
  | completed
  | error
  deriving DecidableEq

/-- The TS `CrawlStatus` interface: one parsed inbound event. -/
structure CrawlStatus where
  type : EventTag
  data : Option StatusData
  session_id : Option String
  deriving DecidableEq

/-- Success body of `POST /crawl`. -/
structure CrawlResponse where
  session_id : String
  message : String
  subscribe_url : String
  deriving DecidableEq

/-- Success body of `POST /chat`; the component reads `response` and
`search_results`, both of which may be absent. -/
structure ChatResponse where
  response : Option String
  search_results : Option (List SearchResult)
  session_id : Option String
  deriving DecidableEq

/-- One reduced turn of the `chat_history` request field. -/
structure ChatTurn where
  role : Role
  content : String
  deriving DecidableEq

/-- Body of the `POST /chat` request issued by `handleSendMessage`. -/
structure ChatRequest where
  session_id : String
  chat_history : List ChatTurn
  deriving DecidableEq

/-- Body of the `POST /crawl` request issued by `handleCrawl`. -/
structure CrawlRequest where
  url : String
  limit : Int
  deriving DecidableEq

/-- The component state: every `useState` hook of `ChatInterface`, plus the
EventSource ref.  `eventSource = none` models a null ref (no channel ever
created); `some b` models a created channel whose open flag is `b`.
`oldChannels` records the open flags of channels the ref no longer points
at (they were replaced by a newer subscription).  `timerArmed` models the
pending `setTimeout` connection guard of `subscribeToStatus`. -/
structure State where
  url : String
  limit : Int
  sessionId : Option String
  isCrawling : Bool
  isCrawled : Bool
  crawlStatus : String
  messages : List Message
  currentMessage : String
  isSending : Bool
  oldChannels : List Bool
  eventSource : Option Bool
  timerArmed : Bool
  deriving DecidableEq

/-- The initial hook values of `ChatInterface`. -/
def initState : State :=
  { url := ""
    limit := 10
    sessionId := none
    isCrawling := false
    isCrawled := false
    crawlStatus := ""
    messages := []
    currentMessage := ""
    isSending := false
    oldChannels := []
    eventSource := none
    timerArmed := false }

/-- Models `if (eventSourceRef.current) eventSourceRef.current.close()`:
closing a handle is a one-way flip to closed; a null ref is a no-op. -/
def closeCurrent (es : Option Bool) : Option Bool :=
  es.map (fun _ => false)

/-- Whether the channel the ref points at is open. -/
def isOpenChannel : Option Bool → Bool
  | some true => true
  | _ => false

/-- Number of open channels in a list of open flags. -/
def opens : List Bool → Nat
  | [] => 0
  | b :: t => (if b then 1 else 0) + opens t

/-- Total number of open channels the component instance holds. -/
def totalOpens (s : State) : Nat :=
  opens s.oldChannels + (if isOpenChannel s.eventSource then 1 else 0)

/-- JS template-literal rendering of a possibly-undefined string
(`undefined` prints as the string "undefined"). -/
def showOptStr : Option String → String
  | none => "undefined"
  | some t => t

/-- JS template-literal rendering of a possibly-undefined number. -/
def showOptInt : Option Int → String
  | none => "undefined"
  | some n => toString n

/-- JS falsiness of a nullable string: null/undefined and "" are falsy. -/
def jsFalsyStr : Option String → Bool
  | none => true
  | some t => t = ""

/-- The `!text.trim()` test of the source: the string is empty or
whitespace-only (its JS `trim()` is the empty string). -/
def isBlank (u : String) : Bool := u.data.all Char.isWhitespace

/-- The `handleStatusUpdate` handler of `ChatInterface.tsx`: dispatch on the tag of a
parsed inbound event.  `now` is `Date.now()` at the moment of handling.
On `completed` the transcript is set to the single summary message
(`setMessages([systemMessage])`) when a summary is present, and the current
channel is closed; on `error` the channel is closed and the crawling flag
cleared. -/
def handleStatusUpdate (s : State) (now : Nat) (d : CrawlStatus) : State :=
  match d.type with
  | EventTag.connected =>
      { s with crawlStatus := "📡 Connected to status updates" }
  | EventTag.status =>
      { s with crawlStatus := "📊 Status: " ++ showOptStr (d.data.bind StatusData.message) }
  | EventTag.progress =>
      { s with crawlStatus := "⚡ " ++ showOptStr (d.data.bind StatusData.message) }
  | EventTag.completed =>
      let s1 : State :=
        { s with
          crawlStatus := "✅ Crawling completed! Found "
            ++ showOptInt (d.data.bind StatusData.total_images)
            ++ " images across "
            ++ showOptInt (d.data.bind StatusData.total_pages) ++ " pages"
          isCrawled := true
          isCrawling := false }
      let s2 : State :=
        match d.data.bind StatusData.summary with
        | some t =>
            { s1 with messages := [⟨toString now, Role.ai, t, now, none⟩] }
        | none => s1
      { s2 with eventSource := closeCurrent s2.eventSource }
  | EventTag.error =>
      { s with
        crawlStatus := "❌ Error: " ++ showOptStr (d.data.bind StatusData.message)
        isCrawling := false
        eventSource := closeCurrent s.eventSource }

/-- The `subscribeToStatus` operation: first closes the existing channel if any (the old
handle, now closed, moves into `oldChannels` once the ref is repointed),
creates a fresh EventSource and arms the connection-timeout guard. -/
def subscribeToStatus (s : State) : State :=
  { s with
    oldChannels := s.oldChannels ++
      (match s.eventSource with
       | none => []
       | some _ => [false])
    eventSource := some true
    timerArmed := true }

/-- The `eventSource.onopen` handler: clears the timeout guard and records
the connection-established advisory. -/
def onOpen (s : State) : State :=
  { s with
    timerArmed := false
    crawlStatus := "📡 Connection established with server" }

/-- One inbound `onmessage` delivery: either `JSON.parse` succeeds with a
`CrawlStatus`, or it throws (malformed payload) with some error text. -/
inductive Inbound where
  | malformed (errMsg : String)
  | event (e : CrawlStatus)
  deriving DecidableEq

/-- The `eventSource.onmessage` handler: a parsed event is dispatched to
`handleStatusUpdate`; a parse failure only records an advisory string
(the catch block neither closes the channel nor clears any flag). -/
def onMessage (s : State) (now : Nat) : Inbound → State
  | Inbound.malformed err =>
      { s with crawlStatus := "⚠️ Error parsing server message: " ++ err }
  | Inbound.event e => handleStatusUpdate s now e

/-- The `eventSource.onerror` handler: clears the timeout guard, closes the
channel, clears the crawling flag and records the connection-fault
advisory. -/
def onError (s : State) : State :=
  { s with
    timerArmed := false
    eventSource := closeCurrent s.eventSource
    isCrawling := false
    crawlStatus := "❌ Connection error: Failed to connect to server" }

/-- The body of the `setTimeout` connection guard: if the ref holds a
channel, it is closed, the crawling flag cleared and the timeout advisory
recorded.  Firing consumes the one-shot timer. -/
def fireTimeout (s : State) : State :=
  match s.eventSource with
  | none => { s with timerArmed := false }
  | some _ =>
      { s with
        timerArmed := false
        eventSource := closeCurrent s.eventSource
        isCrawling := false
        crawlStatus := "❌ Connection timeout: Server did not respond within 30 seconds" }

/-- The two validation guards at the top of `handleCrawl`: an empty
(whitespace-only) URL, then a page limit outside 1..100. -/
def crawlValidationError (url : String) (limit : Int) : Option String :=
  if isBlank url = true then
    some "Please enter a valid URL"
  else if limit < 1 ∨ 100 < limit then
    some "Please enter a valid number of pages to crawl (1-100)"
  else
    none

/-- The `handleCrawl` operation up to the `fetch`: when validation fails the state is
untouched and no request is issued; otherwise the crawling flag is set,
the starting advisory recorded, and the `POST /crawl` body built from the
current url and limit. -/
def handleCrawlStart (s : State) : State × Option CrawlRequest :=
  match crawlValidationError s.url s.limit with
  | some _ => (s, none)
  | none =>
      ({ s with isCrawling := true, crawlStatus := "🚀 Starting crawl..." },
       some ⟨s.url, s.limit⟩)

/-- The `handleSendMessage` operation up to the `fetch`: the early return fires when the
trimmed draft is empty or the session id is JS-falsy; otherwise the human
turn is appended, the draft cleared, the sending flag set, and the
`POST /chat` body built with `chat_history` mapped from the transcript
plus the new human turn. -/
def sendStartRequest (s : State) (now : Nat) : Option (State × ChatRequest) :=
  if isBlank s.currentMessage = true ∨ jsFalsyStr s.sessionId = true then
    none
  else
    let userMessage : Message := ⟨toString now, Role.human, s.currentMessage, now, none⟩
    let chatHistory : List ChatTurn :=
      (s.messages ++ [userMessage]).map (fun m => ⟨m.role, m.content⟩)
    some ({ s with
             messages := s.messages ++ [userMessage]
             currentMessage := ""
             isSending := true },
          ⟨s.sessionId.getD "", chatHistory⟩)

/-- The send operation as it is reachable through the UI: both the
Enter-key path (`handleKeyPress` requires `isCrawled && !isSending`) and
the send button (rendered only when crawled, disabled while sending) gate
`handleSendMessage` behind the ready phase with no send in flight. -/
def sendMessageOp (s : State) (now : Nat) : State :=
  if s.isCrawled = true ∧ s.isSending = false then
    match sendStartRequest s now with
    | some (st, _) => st
    | none => s
  else s

/-- JS `a || b` on a nullable string: the fallback replaces null/undefined
and the empty string. -/
def jsOrElse : Option String → String → String
  | none, fb => fb
  | some t, fb => if t = "" then fb else t

/-- The assistant `Message` built from a successful `POST /chat` response:
content is `result.response || "I received your message."` and the
ranked results are carried over verbatim. -/
def assistantOf (r : ChatResponse) (now : Nat) : Message :=
  ⟨toString (now + 1), Role.ai, jsOrElse r.response "I received your message.",
   now, r.search_results⟩

/-- The tail of `handleSendMessage` once the `fetch` settles: on success
one assistant message from the response is appended; on any thrown error
(non-2xx, network failure, malformed body) one synthesized assistant
message is appended; the `finally` clears the sending flag in both
branches. -/
def handleSendResult (s : State) (now : Nat) : Except String ChatResponse → State
  | Except.ok r =>
      { s with messages := s.messages ++ [assistantOf r now], isSending := false }
  | Except.error msg =>
      { s with
        messages := s.messages ++
          [⟨toString (now + 1), Role.ai,
            "Sorry, I encountered an error: " ++ msg ++ ". Please try again.",
            now, none⟩]
        isSending := false }

/-- The `resetCrawl` operation: restores the input fields, session id, phase flags,
status line and transcript to their initial values and closes the current
channel.  It does not touch `isSending` and does not clear the timer. -/
def resetCrawl (s : State) : State :=
  { s with
    url := ""
    limit := 10
    sessionId := none
    isCrawling := false
    isCrawled := false
    crawlStatus := ""
    messages := []
    currentMessage := ""
    eventSource := closeCurrent s.eventSource }

/-- The unmount cleanup effect: closes the ref-held channel if any. -/
def unmountCleanup (s : State) : State :=
  { s with eventSource := closeCurrent s.eventSource }

/-- The `parseInt(value) || 10` then clamp-to-[1,20] logic of the
page-limit input.  `none` models a non-numeric parse (NaN). -/
def clampLimit (v : Option Int) : Int :=
  let value : Int :=
    match v with
    | none => 10
    | some 0 => 10
    | some n => n
  min (max value 1) 20

/-- The externally triggered events the component reacts to.  HTTP
outcomes carry the decoded response or the thrown error text; channel and
timer callbacks are their own events; input events model typing into the
three fields. -/
inductive Event where
  | crawlStart
  | crawlOk (resp : CrawlResponse)
  | crawlErr (msg : String)
  | subscribe
  | chanOpen
  | chanMsg (m : Inbound) (now : Nat)
  | chanErr
  | timerFire
  | sendStart (now : Nat)
  | sendOk (resp : ChatResponse) (now : Nat)
  | sendErr (msg : String) (now : Nat)
  | reset
  | unmount
  | setUrl (u : String)
  | setLimit (v : Option Int)
  | setMsg (t : String)

/-- One step of the client, `none` when the event is not enabled: crawl
start requires the idle phase (button/key guards), send start requires the
ready phase with no send in flight, HTTP completions require the matching
in-flight flag, the timer can only fire while armed, and reset requires
the crawled phase (the button is only rendered then). -/
def step (s : State) : Event → Option State
  | Event.crawlStart =>
      if s.isCrawling = false ∧ s.isCrawled = false then
        some (handleCrawlStart s).1
      else none
  | Event.crawlOk resp =>
      if s.isCrawling = true then
        some { s with sessionId := some resp.session_id }
      else none
  | Event.crawlErr _ =>
      if s.isCrawling = true then
        some { s with isCrawling := false }
      else none
  | Event.subscribe => some (subscribeToStatus s)
  | Event.chanOpen => some (onOpen s)
  | Event.chanMsg m now => some (onMessage s now m)
  | Event.chanErr => some (onError s)
  | Event.timerFire =>
      if s.timerArmed = true then some (fireTimeout s) else none
  | Event.sendStart now =>
      if s.isCrawled = true ∧ s.isSending = false then
        match sendStartRequest s now with
        | some (st, _) => some st
        | none => some s
      else none
  | Event.sendOk resp now =>
      if s.isSending = true then
        some (handleSendResult s now (Except.ok resp))
      else none
  | Event.sendErr msg now =>
      if s.isSending = true then
        some (handleSendResult s now (Except.error msg))
      else none
  | Event.reset =>
      if s.isCrawled = true then some (resetCrawl s) else none
  | Event.unmount => some (unmountCleanup s)
  | Event.setUrl u => some { s with url := u }
  | Event.setLimit v => some { s with limit := clampLimit v }
  | Event.setMsg t => some { s with currentMessage := t }

/-- States the client can reach from its initial hook values. -/
inductive Reachable : State → Prop where
  | init : Reachable initState
  | next {s s' : State} (h : Reachable s) (e : Event) (he : step s e = some s') :
      Reachable s'

/-- The invariant behind the single-channel property: every channel the
ref no longer points at is closed. -/
def ChanInv (s : State) : Prop := opens s.oldChannels = 0

/-- A reachable state captured mid-send: the first crawl completed and
seeded the transcript, the user typed "hi" and pressed send, and the
chat request is still in flight (`isSending = true`). -/
def midSendState : State :=
  { url := "u"
    limit := 10
    sessionId := some "abc"
    isCrawling := false
    isCrawled := true
    crawlStatus := "✅ Crawling completed! Found 3 images across 2 pages"
    messages := [⟨"1", Role.ai, "S1", 1, none⟩, ⟨"2", Role.human, "hi", 2, none⟩]
    currentMessage := ""
    isSending := true
    oldChannels := []
    eventSource := some false
    timerArmed := false }

/-- A reachable crawling state with a non-empty transcript: from
`midSendState` the user pressed Reset while the send was in flight, the
pending chat request then failed and appended its synthesized assistant
turn to the cleared transcript, and a second crawl was started. -/
def staleCrawlingState : State :=
  { url := "v"
    limit := 10
    sessionId := none
    isCrawling := true
    isCrawled := false
    crawlStatus := "🚀 Starting crawl..."
    messages := [⟨"4", Role.ai, "Sorry, I encountered an error: boom. Please try again.", 3, none⟩]
    currentMessage := ""
    isSending := false
    oldChannels := []
    eventSource := some false
    timerArmed := false }

/-- The completed event used to exercise the completed transition on
`staleCrawlingState`. -/
def sampleCompletedEvent : CrawlStatus :=
  ⟨EventTag.completed, some ⟨none, none, some "S2", some 7, some 4, none⟩, none⟩

/-- A ready-phase state with a seeded transcript and a typed draft,
used to exercise the send path on concrete inputs. -/
def readyState : State :=
  { initState with
    sessionId := some "abc"
    isCrawled := true
    messages := [⟨"1", Role.ai, "S1", 1, none⟩]
    currentMessage := "hi" }

/-- A concrete ranked image result. -/
def sampleResult : SearchResult := ⟨"u", "jpg", "cat", "s", (1 / 2 : Rat)⟩

theorem opens_append (l r : List Bool) : opens (l ++ r) = opens l + opens r := by
  induction l with
  | nil => simp [opens]
  | cons b t ih => simp [opens, ih]; omega

theorem handleStatusUpdate_oldChannels (s : State) (now : Nat) (d : CrawlStatus) :
    (handleStatusUpdate s now d).oldChannels = s.oldChannels := by
  unfold handleStatusUpdate
  cases d.type <;> simp
  cases d.data.bind StatusData.summary <;> simp

theorem sendStartRequest_state {s : State} {now : Nat} {st : State} {req : ChatRequest}
    (h : sendStartRequest s now = some (st, req)) :
    st = { s with
            messages := s.messages ++ [⟨toString now, Role.human, s.currentMessage, now, none⟩]
            currentMessage := ""
            isSending := true } := by
  unfold sendStartRequest at h
  split at h
  · simp at h
  · simp only [Option.some.injEq, Prod.mk.injEq] at h
    exact h.1.symm

theorem step_chanInv {s s' : State} {e : Event} (he : step s e = some s')
    (h : ChanInv s) : ChanInv s' := by
  unfold ChanInv at h ⊢
  cases e with
  | crawlStart =>
      simp only [step] at he
      split at he
      · simp only [Option.some.injEq] at he
        subst he
        unfold handleCrawlStart
        cases crawlValidationError s.url s.limit <;> exact h
      · simp at he
  | crawlOk resp =>
      simp only [step] at he
      split at he
      · simp only [Option.some.injEq] at he; subst he; exact h
      · simp at he
  | crawlErr msg =>
      simp only [step] at he
      split at he
      · simp only [Option.some.injEq] at he; subst he; exact h
      · simp at he
  | subscribe =>
      simp only [step, Option.some.injEq] at he
      subst he
      unfold subscribeToStatus
      cases s.eventSource <;> simp [opens_append, opens, h]
  | chanOpen =>
      simp only [step, Option.some.injEq] at he; subst he; exact h
  | chanMsg m now =>
      simp only [step, Option.some.injEq] at he
      subst he
      cases m with
      | malformed err => exact h
      | event e => rw [show (onMessage s now (Inbound.event e)).oldChannels
            = s.oldChannels from handleStatusUpdate_oldChannels s now e]; exact h
  | chanErr =>
      simp only [step, Option.some.injEq] at he; subst he; exact h
  | timerFire =>
      simp only [step] at he
      split at he
      · simp only [Option.some.injEq] at he
        subst he
        unfold fireTimeout
        cases s.eventSource <;> exact h
      · simp at he
  | sendStart now =>
      simp only [step] at he
      split at he
      · rcases hr : sendStartRequest s now with _ | ⟨st, req⟩
        · rw [hr] at he
          simp only [Option.some.injEq] at he; subst he; exact h
        · rw [hr] at he
          simp only [Option.some.injEq] at he; subst he
          rw [sendStartRequest_state hr]
          exact h
      · simp at he
  | sendOk resp now =>
      simp only [step] at he
      split at he
      · simp only [Option.some.injEq] at he; subst he; exact h
      · simp at he
  | sendErr msg now =>
      simp only [step] at he
      split at he
      · simp only [Option.some.injEq] at he; subst he; exact h
      · simp at he
  | reset =>
      simp only [step] at he
      split at he
      · simp only [Option.some.injEq] at he; subst he; exact h
      · simp at he
  | unmount =>
      simp only [step, Option.some.injEq] at he; subst he; exact h
  | setUrl u =>
      simp only [step, Option.some.injEq] at he; subst he; exact h
  | setLimit v =>
      simp only [step, Option.some.injEq] at he; subst he; exact h
  | setMsg t =>
      simp only [step, Option.some.injEq] at he; subst he; exact h

theorem reachable_chanInv {s : State} (h : Reachable s) : ChanInv s := by
  induction h with
  | init => rfl
  | next h e he ih => exact step_chanInv he ih

theorem midSendState_reachable : Reachable midSendState := by
  have h1 : Reachable { initState with url := "u" } :=
    Reachable.next Reachable.init (Event.setUrl "u") rfl
  have h2 : Reachable { initState with
      url := "u", isCrawling := true, crawlStatus := "🚀 Starting crawl..." } :=
    Reachable.next h1 Event.crawlStart (by decide)
  have h3 : Reachable { initState with
      url := "u", isCrawling := true, crawlStatus := "🚀 Starting crawl...",
      sessionId := some "abc" } :=
    Reachable.next h2 (Event.crawlOk ⟨"abc", "Crawling started", "/crawl/abc/status"⟩) rfl
  have h4 : Reachable { initState with
      url := "u", isCrawling := true, crawlStatus := "🚀 Starting crawl...",
      sessionId := some "abc", eventSource := some true, timerArmed := true } :=
    Reachable.next h3 Event.subscribe rfl
  have h5 : Reachable { initState with
      url := "u", isCrawling := true,
      crawlStatus := "📡 Connection established with server",
      sessionId := some "abc", eventSource := some true } :=
    Reachable.next h4 Event.chanOpen rfl
  have h6 : Reachable { initState with
      url := "u", isCrawling := false, isCrawled := true,
      crawlStatus := "✅ Crawling completed! Found 3 images across 2 pages",
      sessionId := some "abc", eventSource := some false,
      messages := [⟨"1", Role.ai, "S1", 1, none⟩] } :=
    Reachable.next h5
      (Event.chanMsg
        (Inbound.event ⟨EventTag.completed, some ⟨none, none, some "S1", some 3, some 2, none⟩, none⟩) 1)
      rfl
  have h7 : Reachable { initState with
      url := "u", isCrawling := false, isCrawled := true,
      crawlStatus := "✅ Crawling completed! Found 3 images across 2 pages",
      sessionId := some "abc", eventSource := some false,
      messages := [⟨"1", Role.ai, "S1", 1, none⟩], currentMessage := "hi" } :=
    Reachable.next h6 (Event.setMsg "hi") rfl
  exact Reachable.next h7 (Event.sendStart 2) (by decide)

theorem staleCrawlingState_reachable : Reachable staleCrawlingState := by
  have h9 : Reachable { initState with isSending := true, eventSource := some false } :=
    Reachable.next midSendState_reachable Event.reset rfl
  have h10 : Reachable { initState with
      eventSource := some false,
      messages := [⟨"4", Role.ai, "Sorry, I encountered an error: boom. Please try again.", 3, none⟩] } :=
    Reachable.next h9 (Event.sendErr "boom" 3) rfl
  have h11 : Reachable { initState with
      url := "v", eventSource := some false,
      messages := [⟨"4", Role.ai, "Sorry, I encountered an error: boom. Please try again.", 3, none⟩] } :=
    Reachable.next h10 (Event.setUrl "v") rfl
  exact Reachable.next h11 Event.crawlStart (by decide)

theorem sendStartRequest_eq (s : State) (now : Nat) (sid : String)
    (hsid : s.sessionId = some sid) (hne : sid ≠ "")
    (hb : isBlank s.currentMessage = false) :
    sendStartRequest s now = some
      ({ s with
          messages := s.messages ++ [⟨toString now, Role.human, s.currentMessage, now, none⟩]
          currentMessage := ""
          isSending := true },
       ⟨sid, s.messages.map (fun m => ⟨m.role, m.content⟩)
          ++ [⟨Role.human, s.currentMessage⟩]⟩) := by
  unfold sendStartRequest
  rw [hsid]
  rw [if_neg]
  · simp [List.map_append]
  · simp [hb, jsFalsyStr, hne]

/-- Claim C2, counterexample: with a non-blank url and page limit 50 —
outside [1,20] — the crawl-start operation passes validation and issues
the HTTP request, where the claim demands a ValidationError and no
network call. -/
theorem crawl_limit_validation_cex :
    (handleCrawlStart { initState with url := "https://example.com", limit := 50 }).2
        = some ⟨"https://example.com", 50⟩ ∧
    ((50 : Int) < 1 ∨ (50 : Int) > 20) := by
  decide

/-- Claim C2 (amended): the crawl-start operation fails with a
ValidationError and issues no request exactly when the url is blank or the
page limit lies outside [1,100]; for all other inputs the request carrying
the current url and limit is issued. -/
theorem handleCrawlStart_validation_spec (s : State) :
    (handleCrawlStart s).2 =
      (if isBlank s.url = true ∨ s.limit < 1 ∨ 100 < s.limit then none
       else some ⟨s.url, s.limit⟩) ∧
    ((handleCrawlStart s).2 = none ↔ (crawlValidationError s.url s.limit).isSome = true) := by
  unfold handleCrawlStart crawlValidationError
  by_cases hb : isBlank s.url = true
  · simp [hb]
  · by_cases hl : s.limit < 1 ∨ 100 < s.limit
    · simp [hb, hl]
    · simp [hb, hl]

/-- Claim C3, counterexample: a malformed inbound payload on an open
channel while crawling does not clear the crawling flag and does not close
the channel, where the claim demands both. -/
theorem malformed_payload_cex :
    ¬((onMessage { initState with isCrawling := true, eventSource := some true } 0
          (Inbound.malformed "Unexpected token")).isCrawling = false ∧
      isOpenChannel (onMessage { initState with isCrawling := true, eventSource := some true } 0
          (Inbound.malformed "Unexpected token")).eventSource = false) := by
  decide

/-- Claim C3 (amended): a dropped connection (the onerror callback) closes
the channel, clears the crawling flag and records a distinct
connection-fault advisory; a malformed inbound payload only records a
parse-failure advisory, leaving the channel, the crawling flag and the
transcript untouched. -/
theorem channel_fault_spec (s : State) (now : Nat) (err : String) :
    (onError s).isCrawling = false ∧
    isOpenChannel (onError s).eventSource = false ∧
    (onError s).crawlStatus = "❌ Connection error: Failed to connect to server" ∧
    (onMessage s now (Inbound.malformed err)).isCrawling = s.isCrawling ∧
    (onMessage s now (Inbound.malformed err)).eventSource = s.eventSource ∧
    (onMessage s now (Inbound.malformed err)).messages = s.messages ∧
    (onMessage s now (Inbound.malformed err)).crawlStatus
      = "⚠️ Error parsing server message: " ++ err := by
  refine ⟨rfl, ?_, rfl, rfl, rfl, rfl, rfl⟩
  show isOpenChannel (closeCurrent s.eventSource) = false
  cases s.eventSource <;> rfl

/-- Claim C1, counterexample: in a reachable crawling state whose
transcript is non-empty, the completed transition does not append its
summary message to the transcript — it replaces the transcript, so the
resulting transcript extends no prior transcript by one message. -/
theorem completed_replaces_transcript_cex :
    Reachable staleCrawlingState ∧ staleCrawlingState.isCrawling = true ∧
    ¬∃ m : Message,
      (handleStatusUpdate staleCrawlingState 9 sampleCompletedEvent).messages
        = staleCrawlingState.messages ++ [m] := by
  refine ⟨staleCrawlingState_reachable, rfl, ?_⟩
  rintro ⟨m, hm⟩
  have h1 : (handleStatusUpdate staleCrawlingState 9 sampleCompletedEvent).messages
      = [⟨"9", Role.ai, "S2", 9, none⟩] := by decide
  rw [h1] at hm
  have h2 := congrArg List.length hm
  simp [staleCrawlingState] at h2

/-- Claim C1 (amended): while phase=crawling, handling a completed event
sets phase to ready, clears the crawling flag, closes the status channel,
and sets the transcript to exactly the one assistant message carrying the
summary of the event when a summary is present (replacing any previous
contents), leaving the transcript unchanged when the summary is absent. -/
theorem handleStatusUpdate_completed_spec (s : State) (now : Nat)
    (d : Option StatusData) (sid : Option String) (_h : s.isCrawling = true) :
    (handleStatusUpdate s now ⟨EventTag.completed, d, sid⟩).isCrawled = true ∧
    (handleStatusUpdate s now ⟨EventTag.completed, d, sid⟩).isCrawling = false ∧
    isOpenChannel (handleStatusUpdate s now ⟨EventTag.completed, d, sid⟩).eventSource = false ∧
    (d.bind StatusData.summary = none →
      (handleStatusUpdate s now ⟨EventTag.completed, d, sid⟩).messages = s.messages) ∧
    (∀ t, d.bind StatusData.summary = some t →
      (handleStatusUpdate s now ⟨EventTag.completed, d, sid⟩).messages
        = [⟨toString now, Role.ai, t, now, none⟩]) := by
  refine ⟨?_, ?_, ?_, ?_, ?_⟩
  · cases hs : d.bind StatusData.summary <;> simp [handleStatusUpdate, hs]
  · cases hs : d.bind StatusData.summary <;> simp [handleStatusUpdate, hs]
  · cases hs : d.bind StatusData.summary <;>
      · simp only [handleStatusUpdate, hs]
        cases s.eventSource <;> rfl
  · intro hs
    simp [handleStatusUpdate, hs]
  · intro t hs
    simp [handleStatusUpdate, hs]

/-- Claim C1, witness of the amended statement at a concrete crawling
state and completed event carrying a summary. -/
theorem handleStatusUpdate_completed_spec_witness :
    (handleStatusUpdate { initState with isCrawling := true, eventSource := some true } 7
        ⟨EventTag.completed, some ⟨none, none, some "Done", some 1, some 1, none⟩, none⟩).isCrawled
      = true ∧
    (handleStatusUpdate { initState with isCrawling := true, eventSource := some true } 7
        ⟨EventTag.completed, some ⟨none, none, some "Done", some 1, some 1, none⟩, none⟩).isCrawling
      = false ∧
    isOpenChannel (handleStatusUpdate { initState with isCrawling := true, eventSource := some true } 7
        ⟨EventTag.completed, some ⟨none, none, some "Done", some 1, some 1, none⟩, none⟩).eventSource
      = false ∧
    (handleStatusUpdate { initState with isCrawling := true, eventSource := some true } 7
        ⟨EventTag.completed, some ⟨none, none, some "Done", some 1, some 1, none⟩, none⟩).messages
      = [⟨"7", Role.ai, "Done", 7, none⟩] := by
  have h := handleStatusUpdate_completed_spec
    { initState with isCrawling := true, eventSource := some true } 7
    (some ⟨none, none, some "Done", some 1, some 1, none⟩) none rfl
  exact ⟨h.1, h.2.1, h.2.2.1, h.2.2.2.2 "Done" rfl⟩

/-- Claim C4: in every reachable state at most one channel is open;
opening a new channel leaves every previously existing channel closed and
still at most one open in total; the unmount cleanup leaves no open
channel. -/
theorem single_open_channel_spec (s : State) (h : Reachable s) :
    totalOpens s ≤ 1 ∧
    opens (subscribeToStatus s).oldChannels = 0 ∧
    totalOpens (subscribeToStatus s) ≤ 1 ∧
    totalOpens (unmountCleanup s) = 0 := by
  have hc : opens s.oldChannels = 0 := reachable_chanInv h
  refine ⟨?_, ?_, ?_, ?_⟩
  · unfold totalOpens
    rw [hc]
    split <;> omega
  · show opens (s.oldChannels ++ _) = 0
    cases s.eventSource <;> simp [opens_append, opens, hc]
  · unfold totalOpens subscribeToStatus
    cases s.eventSource <;> simp [opens_append, opens, hc, isOpenChannel]
  · show opens s.oldChannels + (if isOpenChannel (closeCurrent s.eventSource) = true then 1 else 0) = 0
    rw [hc]
    cases s.eventSource <;> rfl

/-- Claim C4, witness at the reachable mid-send state. -/
theorem single_open_channel_spec_witness :
    totalOpens midSendState ≤ 1 ∧
    opens (subscribeToStatus midSendState).oldChannels = 0 ∧
    totalOpens (subscribeToStatus midSendState) ≤ 1 ∧
    totalOpens (unmountCleanup midSendState) = 0 :=
  single_open_channel_spec midSendState midSendState_reachable

/-- Claim C5, counterexample: resetting from the reachable mid-send state
leaves the sending flag set, not at its initial value. -/
theorem resetCrawl_isSending_cex :
    Reachable midSendState ∧ midSendState.isSending = true ∧
    (resetCrawl midSendState).isSending ≠ initState.isSending :=
  ⟨midSendState_reachable, rfl, by decide⟩

/-- Claim C5 (amended): from every reachable state, reset returns the
url, page limit, session id, phase flags, status line, transcript and
draft to their initial values and leaves no open channel; the sending
flag is left unchanged (it is cleared only when the in-flight send
settles). -/
theorem resetCrawl_spec (s : State) (h : Reachable s) :
    (resetCrawl s).url = initState.url ∧
    (resetCrawl s).limit = initState.limit ∧
    (resetCrawl s).sessionId = initState.sessionId ∧
    (resetCrawl s).isCrawling = initState.isCrawling ∧
    (resetCrawl s).isCrawled = initState.isCrawled ∧
    (resetCrawl s).crawlStatus = initState.crawlStatus ∧
    (resetCrawl s).messages = initState.messages ∧
    (resetCrawl s).currentMessage = initState.currentMessage ∧
    totalOpens (resetCrawl s) = 0 ∧
    (resetCrawl s).isSending = s.isSending := by
  have hc : opens s.oldChannels = 0 := reachable_chanInv h
  refine ⟨rfl, rfl, rfl, rfl, rfl, rfl, rfl, rfl, ?_, rfl⟩
  show opens s.oldChannels + (if isOpenChannel (closeCurrent s.eventSource) = true then 1 else 0) = 0
  rw [hc]
  cases s.eventSource <;> rfl

/-- Claim C5, witness at the reachable mid-send state. -/
theorem resetCrawl_spec_witness :
    (resetCrawl midSendState).url = initState.url ∧
    (resetCrawl midSendState).limit = initState.limit ∧
    (resetCrawl midSendState).sessionId = initState.sessionId ∧
    (resetCrawl midSendState).isCrawling = initState.isCrawling ∧
    (resetCrawl midSendState).isCrawled = initState.isCrawled ∧
    (resetCrawl midSendState).crawlStatus = initState.crawlStatus ∧
    (resetCrawl midSendState).messages = initState.messages ∧
    (resetCrawl midSendState).currentMessage = initState.currentMessage ∧
    totalOpens (resetCrawl midSendState) = 0 ∧
    (resetCrawl midSendState).isSending = midSendState.isSending :=
  resetCrawl_spec midSendState midSendState_reachable

/-- Claim C6: subscribing arms the timeout guard; with the guard armed the
timeout event is enabled and firing it closes the just-opened channel,
clears the crawling flag and records the timeout advisory; the onopen
callback cancels the guard, and with the guard cancelled the timeout
event can never fire. -/
theorem connection_timeout_spec (s : State) :
    (subscribeToStatus s).timerArmed = true ∧
    step (subscribeToStatus s) Event.timerFire = some (fireTimeout (subscribeToStatus s)) ∧
    isOpenChannel (fireTimeout (subscribeToStatus s)).eventSource = false ∧
    (fireTimeout (subscribeToStatus s)).isCrawling = false ∧
    (fireTimeout (subscribeToStatus s)).crawlStatus
      = "❌ Connection timeout: Server did not respond within 30 seconds" ∧
    (onOpen s).timerArmed = false ∧
    (∀ t : State, t.timerArmed = false → step t Event.timerFire = none) := by
  refine ⟨rfl, rfl, rfl, rfl, rfl, rfl, ?_⟩
  intro t ht
  simp [step, ht]

/-- Claim C6, witness: from the initial state, subscribing then letting
the timeout fire closes the channel and clears the flag; after onopen the
guard is down and the timeout event is disabled. -/
theorem connection_timeout_spec_witness :
    (subscribeToStatus initState).timerArmed = true ∧
    step (subscribeToStatus initState) Event.timerFire
      = some (fireTimeout (subscribeToStatus initState)) ∧
    isOpenChannel (fireTimeout (subscribeToStatus initState)).eventSource = false ∧
    (fireTimeout (subscribeToStatus initState)).isCrawling = false ∧
    (onOpen initState).timerArmed = false ∧
    step (onOpen initState) Event.timerFire = none := by
  have h := connection_timeout_spec initState
  exact ⟨h.1, h.2.1, h.2.2.1, h.2.2.2.1, h.2.2.2.2.2.1,
    h.2.2.2.2.2.2 (onOpen initState) rfl⟩

/-- Claim C7: whenever a chat-query send goes through, the request body
carries the session id and a chat history equal to the ordered transcript
so far, each turn reduced to role and content, with the just-added human
turn (role human, content the typed draft) appended last. -/
theorem chatHistory_spec (s : State) (now : Nat) (sid : String)
    (hsid : s.sessionId = some sid) (hne : sid ≠ "")
    (hb : isBlank s.currentMessage = false) :
    sendStartRequest s now = some
      ({ s with
          messages := s.messages ++ [⟨toString now, Role.human, s.currentMessage, now, none⟩]
          currentMessage := ""
          isSending := true },
       ⟨sid, s.messages.map (fun m => ⟨m.role, m.content⟩)
          ++ [⟨Role.human, s.currentMessage⟩]⟩) :=
  sendStartRequest_eq s now sid hsid hne hb

/-- Claim C7, witness: a concrete ready-phase send produces the request
whose chat history is the reduced transcript plus the human turn. -/
theorem chatHistory_spec_witness :
    sendStartRequest readyState 5 = some
      ({ readyState with
          messages := [⟨"1", Role.ai, "S1", 1, none⟩, ⟨"5", Role.human, "hi", 5, none⟩]
          currentMessage := ""
          isSending := true },
       ⟨"abc", [⟨Role.ai, "S1"⟩, ⟨Role.human, "hi"⟩]⟩) :=
  chatHistory_spec readyState 5 "abc" rfl (by decide) (by decide)

/-- Claim C8: the send-message operation (as reachable through the send
button and the Enter-key handler) appends nothing at all when the phase is
not ready or a send is in flight; when the phase is ready, no send is in
flight, the draft is non-blank and a session id is set, it appends exactly
the one human turn carrying the draft. -/
theorem appendHuman_guard_spec (s : State) (now : Nat) :
    ((s.isCrawled = false ∨ s.isSending = true) → sendMessageOp s now = s) ∧
    (s.isCrawled = true → s.isSending = false → isBlank s.currentMessage = false →
      ∀ sid, s.sessionId = some sid → sid ≠ "" →
        (sendMessageOp s now).messages
          = s.messages ++ [⟨toString now, Role.human, s.currentMessage, now, none⟩]) := by
  constructor
  · intro hg
    unfold sendMessageOp
    rw [if_neg]
    rcases hg with hc | hs
    · exact fun hand => by rw [hc] at hand; exact absurd hand.1 (by decide)
    · exact fun hand => by rw [hs] at hand; exact absurd hand.2 (by decide)
  · intro hc hs hb sid hsid hne
    unfold sendMessageOp
    rw [if_pos (show s.isCrawled = true ∧ s.isSending = false from ⟨hc, hs⟩)]
    rw [sendStartRequest_eq s now sid hsid hne hb]

/-- Claim C8, witness: with a send already in flight the operation leaves
the state untouched; in the ready phase with no send in flight it appends
exactly the human turn. -/
theorem appendHuman_guard_spec_witness :
    sendMessageOp { readyState with isSending := true } 5 = { readyState with isSending := true } ∧
    (sendMessageOp readyState 5).messages
      = [⟨"1", Role.ai, "S1", 1, none⟩, ⟨"5", Role.human, "hi", 5, none⟩] := by
  refine ⟨(appendHuman_guard_spec { readyState with isSending := true } 5).1 (Or.inr rfl), ?_⟩
  have h := (appendHuman_guard_spec readyState 5).2 rfl rfl (by decide) "abc" rfl (by decide)
  exact h

/-- Claim C9: on any chat-query transport failure, the completion handler
appends exactly one synthesized assistant message after the human turn —
which stays in place — and clears the in-flight send flag. -/
theorem sendFailure_spec (s : State) (now now2 : Nat) (err : String)
    (st : State) (req : ChatRequest)
    (h : sendStartRequest s now = some (st, req)) :
    (handleSendResult st now2 (Except.error err)).messages
      = s.messages ++
        [⟨toString now, Role.human, s.currentMessage, now, none⟩,
         ⟨toString (now2 + 1), Role.ai,
          "Sorry, I encountered an error: " ++ err ++ ". Please try again.", now2, none⟩] ∧
    (handleSendResult st now2 (Except.error err)).isSending = false := by
  have hst := sendStartRequest_state h
  subst hst
  refine ⟨?_, rfl⟩
  simp [handleSendResult]

/-- Claim C9, witness: a concrete failing send keeps the human turn and
appends the one synthesized assistant turn, with the flag cleared. -/
theorem sendFailure_spec_witness :
    (handleSendResult { readyState with
        messages := [⟨"1", Role.ai, "S1", 1, none⟩, ⟨"5", Role.human, "hi", 5, none⟩]
        currentMessage := ""
        isSending := true } 6 (Except.error "boom2")).messages
      = [⟨"1", Role.ai, "S1", 1, none⟩, ⟨"5", Role.human, "hi", 5, none⟩,
         ⟨"7", Role.ai, "Sorry, I encountered an error: boom2. Please try again.", 6, none⟩] ∧
    (handleSendResult { readyState with
        messages := [⟨"1", Role.ai, "S1", 1, none⟩, ⟨"5", Role.human, "hi", 5, none⟩]
        currentMessage := ""
        isSending := true } 6 (Except.error "boom2")).isSending = false := by
  have h := sendFailure_spec readyState 5 6 "boom2"
    { readyState with
        messages := [⟨"1", Role.ai, "S1", 1, none⟩, ⟨"5", Role.human, "hi", 5, none⟩]
        currentMessage := ""
        isSending := true }
    ⟨"abc", [⟨Role.ai, "S1"⟩, ⟨Role.human, "hi"⟩]⟩ (by decide)
  exact h

/-- Claim C10: a successful chat-query response appends exactly one
assistant message carrying the search results of the response verbatim,
whose content is the response text when that text is present and
non-empty, and the fixed fallback string otherwise; the send flag is
cleared. -/
theorem sendSuccess_spec (s : State) (now : Nat) (r : ChatResponse) :
    (handleSendResult s now (Except.ok r)).messages = s.messages ++ [assistantOf r now] ∧
    (handleSendResult s now (Except.ok r)).isSending = false ∧
    (assistantOf r now).role = Role.ai ∧
    (assistantOf r now).search_results = r.search_results ∧
    (∀ t, r.response = some t → t ≠ "" → (assistantOf r now).content = t) ∧
    ((r.response = none ∨ r.response = some "") →
      (assistantOf r now).content = "I received your message.") := by
  refine ⟨rfl, rfl, rfl, rfl, ?_, ?_⟩
  · intro t ht hne
    show jsOrElse r.response "I received your message." = t
    rw [ht]
    simp [jsOrElse, hne]
  · rintro (h0 | h0) <;>
      · show jsOrElse r.response "I received your message." = _
        rw [h0]
        simp [jsOrElse]

/-- Claim C10, witness: a response with text "Here" and one result yields
that assistant message; a response with empty text yields the fallback
content. -/
theorem sendSuccess_spec_witness :
    (handleSendResult readyState 5 (Except.ok ⟨some "Here", some [sampleResult], some "abc"⟩)).messages
      = [⟨"1", Role.ai, "S1", 1, none⟩,
         assistantOf ⟨some "Here", some [sampleResult], some "abc"⟩ 5] ∧
    (assistantOf ⟨some "Here", some [sampleResult], some "abc"⟩ 5).content = "Here" ∧
    (assistantOf ⟨some "Here", some [sampleResult], some "abc"⟩ 5).search_results
      = some [sampleResult] ∧
    (assistantOf ⟨some "", none, none⟩ 5).content = "I received your message." := by
  have h1 := sendSuccess_spec readyState 5 ⟨some "Here", some [sampleResult], some "abc"⟩
  have h2 := sendSuccess_spec readyState 5 ⟨some "", none, none⟩
  exact ⟨h1.1, h1.2.2.2.2.1 "Here" rfl (by decide), h1.2.2.2.1,
    h2.2.2.2.2.2 (Or.inr rfl)⟩

end ImageChat
